import Mathlib

/-!
# Verification of the armavita-meta-ads-mcp OAuth / page-discovery core

A shallow embedding, in Lean 4, of the authentication state machine
(`core/auth_state.py`), the local OAuth callback server lifecycle
(`core/oauth_callback_server.py`) and the multi-source page-discovery
resolver (`core/ad_tools.py`) of the armavita-meta-ads-mcp repository,
together with theorems settling the specification's claims about them.

Python dictionaries / JSON payloads are modelled by the inductive `JVal`;
Python truthiness, `str()`, `int()` and `dict.get` are modelled by
explicit helper functions.  HTTP traffic is modelled by oracles
(`Http`, `Api`): a function from the request to either a response or a
raised exception (represented by the exception's message string).
Wall-clock time (`time.time()`) is passed explicitly as an integer
parameter `now`.
-/

namespace ArmaVita

/-- A JSON value / Python object as it appears in the payloads the core
manipulates: `None`, booleans, integers, strings, lists and dicts. -/
inductive JVal where
  | jnull : JVal
  | jbool : Bool → JVal
  | jnum : Int → JVal
  | jstr : String → JVal
  | jarr : List JVal → JVal
  | jobj : List (String × JVal) → JVal

/-- Look a key up in a JSON object: `Python dict.get(key)` with no
default, except that "missing" is distinguished from "present and null".
Returns `none` when the value is not a dict or the key is absent. -/
def JVal.getOpt : JVal → String → Option JVal
  | .jobj fields, key => (fields.find? (fun f => f.1 = key)).map (fun f => f.2)
  | _, _ => none

/-- `Python dict.get(key)`: absent keys (and non-dict receivers) give
`None` (`jnull`). -/
def JVal.get (v : JVal) (key : String) : JVal :=
  (v.getOpt key).getD .jnull

/-- Whether the value is a Python dict (`isinstance(v, dict)`). -/
def JVal.isObj : JVal → Bool
  | .jobj _ => true
  | _ => false

/-- Python truthiness of a JSON value: `None`, `False`, `0`, `""`, `[]`
and `{}` are falsy, everything else truthy. -/
def JVal.truthy : JVal → Bool
  | .jnull => false
  | .jbool b => b
  | .jnum n => n ≠ 0
  | .jstr s => s ≠ ""
  | .jarr xs => ¬ xs.isEmpty
  | .jobj fs => ¬ fs.isEmpty

/-- Python `a or b` on JSON values: `b` when `a` is falsy. -/
def pyOr (a b : JVal) : JVal :=
  if a.truthy then a else b

/-- Python `str()` of a JSON value.  Lists and dicts (never meaningful
where the code applies `str()`, namely to candidate page ids) are
rendered by a fixed marker rather than by Python's full recursive
rendering. -/
def JVal.pyStr : JVal → String
  | .jnull => "None"
  | .jbool true => "True"
  | .jbool false => "False"
  | .jnum n => toString n
  | .jstr s => s
  | .jarr _ => "[...]"
  | .jobj _ => "\x7b...\x7d"

/-- Python `str.strip()` (whitespace from both ends), over the
character list of the string. -/
def strTrim (s : String) : String :=
  ⟨((s.data.dropWhile Char.isWhitespace).reverse.dropWhile Char.isWhitespace).reverse⟩

/-- `str.startswith(pre)`. -/
def strStartsWith (s pre : String) : Bool :=
  pre.data.isPrefixOf s.data

/-- Python string ordering (lexicographic by code point), as used by
`sorted()`. -/
def charListLe : List Char → List Char → Bool
  | [], _ => true
  | _ :: _, [] => false
  | c :: cs, d :: ds =>
    if c.toNat < d.toNat then true
    else if d.toNat < c.toNat then false
    else charListLe cs ds

/-- Insert into an ascending list (helper of `sortStrings`). -/
def insertSorted (x : String) : List String → List String
  | [] => [x]
  | y :: ys => if charListLe x.data y.data then x :: y :: ys else y :: insertSorted x ys

/-- Python `sorted()` on a list of strings (ascending, code-point
order). -/
def sortStrings (l : List String) : List String :=
  l.foldr insertSorted []

/-- The value of a non-empty all-digit character list. -/
def digitsVal (cs : List Char) : Option Nat :=
  if cs.isEmpty then none
  else if cs.all Char.isDigit then
    some (cs.foldl (fun a c => a * 10 + (c.toNat - 48)) 0)
  else none

/-- Python `int(str)`: the trimmed text must be an optionally signed
run of decimal digits (numeric underscores are not modelled). -/
def pyIntOfStr (s : String) : Option Int :=
  match (strTrim s).data with
  | '-' :: rest => (digitsVal rest).map (fun n => -(n : Int))
  | '+' :: rest => (digitsVal rest).map (fun n => (n : Int))
  | t => (digitsVal t).map (fun n => (n : Int))

/-- Python `int(value)`: ints pass through, booleans become 0/1, strings
are parsed as decimal literals; `None`, lists and dicts raise
(`TypeError`), and unparseable strings raise (`ValueError`) — both
modelled as `none`. -/
def pyInt : JVal → Option Int
  | .jnum n => some n
  | .jbool b => some (if b then 1 else 0)
  | .jstr s => pyIntOfStr s
  | _ => none

/-- The string content of a JSON value stored into a `String`-typed
model field (the OAuth endpoints only ever deliver strings here). -/
def JVal.strVal : JVal → String
  | .jstr s => s
  | .jnum n => toString n
  | _ => ""

/-- A JSON value stored into an `Option String`-typed model field
(`meta_user_id`): `None` stays absent, strings are kept. -/
def JVal.optStrVal : JVal → Option String
  | .jnull => none
  | .jstr s => some s
  | .jnum n => some (toString n)
  | _ => none

/-- `auth_state._coerce_expires_in`: `None` stays `None`; otherwise the
value is passed through `int()`, keeping only strictly positive results;
parse failures give `None`. -/
def _coerce_expires_in (value : JVal) : Option Int :=
  match value with
  | .jnull => none
  | v =>
    match pyInt v with
    | some parsed => if parsed > 0 then some parsed else none
    | none => none

/-- `auth_state.TokenInfo` (a dataclass). -/
structure TokenInfo where
  meta_access_token : String
  expires_in : Option Int := none
  meta_user_id : Option String := none
  created_at : Int := 0
deriving Repr, DecidableEq

/-- The dataclass constructor including `__post_init__`: a falsy
(zero) `created_at` is replaced by the current time. -/
def TokenInfo.mk' (now : Int) (tok : String) (exp : Option Int)
    (uid : Option String) (created : Int) : TokenInfo :=
  { meta_access_token := tok
    expires_in := exp
    meta_user_id := uid
    created_at := if created = 0 then now else created }

/-- `TokenInfo.is_expired`: a falsy `expires_in` (`None` or `0`) means
never expired; otherwise compare `now` against `created_at + expires_in`. -/
def TokenInfo.is_expired (ti : TokenInfo) (now : Int) : Bool :=
  match ti.expires_in with
  | none => false
  | some e => if e = 0 then false else decide (now > ti.created_at + e)

/-- `TokenInfo.serialize`. -/
def TokenInfo.serialize (ti : TokenInfo) : JVal :=
  .jobj
    [ ("meta_access_token", .jstr ti.meta_access_token)
    , ("expires_in", match ti.expires_in with
        | none => .jnull
        | some e => .jnum e)
    , ("meta_user_id", match ti.meta_user_id with
        | none => .jnull
        | some u => .jstr u)
    , ("created_at", .jnum ti.created_at) ]

/-- `TokenInfo.deserialize`.  The `created_at` entry defaults to the
current time when absent and is passed through `int()` when present;
an unparseable value raises, modelled as `none`. -/
def TokenInfo.deserialize (data : JVal) (now : Int) : Option TokenInfo :=
  let created? : Option Int :=
    match data.getOpt "created_at" with
    | none => some now
    | some v => pyInt v
  match created? with
  | none => none
  | some created =>
    some (TokenInfo.mk' now
      (pyOr (data.get "meta_access_token")
        ((data.getOpt "access_token").getD (.jstr ""))).strVal
      (_coerce_expires_in (data.get "expires_in"))
      (pyOr (data.get "meta_user_id") (data.get "user_id")).optStrVal
      created)

/-! ## OAuth token exchanges (`core/auth_state.py`) -/

/-- An HTTP response from the OAuth token endpoint: status code and
parsed JSON body (a request error or an unparseable body is modelled by
the oracle answering `Except.error`). -/
structure HttpResponse where
  status : Int
  body : JVal

/-- An oracle for `requests.get(META_OAUTH_TOKEN_BASE, params=...)`:
maps the request parameters to a response, or to a raised exception
(represented by its message). -/
def Http : Type := List (String × String) → Except String HttpResponse

/-- App credentials as read from `meta_config` / the environment:
`meta_config.get_app_id()` and `META_APP_SECRET`. -/
structure OAuthEnv where
  app_id : String
  app_secret : String
deriving Repr, DecidableEq

/-- `auth_state.AUTH_REDIRECT_URI`. -/
def AUTH_REDIRECT_URI : String := "http://localhost:8888/callback"

/-- Python `redirect_uri or AUTH_REDIRECT_URI` (an absent or empty
override falls back to the default). -/
def redirectOrDefault (redirect_uri : Option String) : String :=
  match redirect_uri with
  | some r => if r = "" then AUTH_REDIRECT_URI else r
  | none => AUTH_REDIRECT_URI

/-- The request parameters `exchange_code_for_short_lived` sends. -/
def shortLivedParams (env : OAuthEnv) (auth_code : String)
    (redirect_uri : Option String) : List (String × String) :=
  [ ("client_id", env.app_id)
  , ("redirect_uri", redirectOrDefault redirect_uri)
  , ("client_secret", env.app_secret)
  , ("code", auth_code) ]

/-- The request parameters `exchange_token_for_long_lived` sends. -/
def longLivedParams (env : OAuthEnv) (short_lived_token : String) :
    List (String × String) :=
  [ ("grant_type", "fb_exchange_token")
  , ("client_id", env.app_id)
  , ("client_secret", env.app_secret)
  , ("fb_exchange_token", short_lived_token) ]

/-- `auth_state.exchange_code_for_short_lived`: `None` on missing app
credentials, raised request errors, non-200 status, or a body whose
`access_token` / `meta_access_token` chain is falsy; otherwise a fresh
`TokenInfo` stamped with the current time. -/
def exchange_code_for_short_lived (http : Http) (env : OAuthEnv) (now : Int)
    (auth_code : String) (redirect_uri : Option String) : Option TokenInfo :=
  if env.app_id = "" ∨ env.app_secret = "" then none
  else
    match http (shortLivedParams env auth_code redirect_uri) with
    | .error _ => none
    | .ok response =>
      if response.status ≠ 200 then none
      else
        let payload := response.body
        let token := pyOr (payload.get "access_token") (payload.get "meta_access_token")
        if token.truthy then
          some (TokenInfo.mk' now token.strVal
            (_coerce_expires_in (payload.get "expires_in"))
            (pyOr (payload.get "user_id") (payload.get "meta_user_id")).optStrVal
            0)
        else none

/-- `auth_state.exchange_token_for_long_lived`: same failure contract as
the short-lived exchange; the resulting `TokenInfo` carries no user id. -/
def exchange_token_for_long_lived (http : Http) (env : OAuthEnv) (now : Int)
    (short_lived_token : String) : Option TokenInfo :=
  if env.app_id = "" ∨ env.app_secret = "" then none
  else
    match http (longLivedParams env short_lived_token) with
    | .error _ => none
    | .ok response =>
      if response.status ≠ 200 then none
      else
        let payload := response.body
        let new_token := pyOr (payload.get "access_token") (payload.get "meta_access_token")
        if new_token.truthy then
          some (TokenInfo.mk' now new_token.strVal
            (_coerce_expires_in (payload.get "expires_in"))
            none 0)
        else none

/-! ## Auth-manager state (`AuthManager`, `_store_token`,
`get_current_access_token`) -/

/-- The mutable authentication state: the in-memory token held by the
process-wide `AuthManager`, the global `needs_authentication` flag, and
the contents of the on-disk token cache file (`none` = file absent). -/
structure AuthState where
  token_info : Option TokenInfo
  needs_authentication : Bool
  cache_file : Option JVal

/-- `AuthManager._persist_token`: writes the serialized current token to
the cache file; a no-op without a token. -/
def AuthState.persist_token (st : AuthState) : AuthState :=
  match st.token_info with
  | none => st
  | some ti => { st with cache_file := some ti.serialize }

/-- `AuthManager.invalidate_token`: clears the in-memory token, raises
the global `needs_authentication` flag and deletes the cache file
(missing file tolerated). -/
def AuthState.invalidate_token (_st : AuthState) : AuthState :=
  { token_info := none, needs_authentication := true, cache_file := none }

/-- `AuthManager.get_access_token`: the current token string when one is
held and unexpired, else `None`. -/
def AuthState.get_access_token (st : AuthState) (now : Int) : Option String :=
  match st.token_info with
  | none => none
  | some ti => if ti.is_expired now then none else some ti.meta_access_token

/-- `auth_state._store_token`: installs the token on the auth manager,
persists it when requested, and clears `needs_authentication`. -/
def _store_token (token_info : TokenInfo) (persist_token : Bool)
    (st : AuthState) : AuthState :=
  let st1 : AuthState := { st with token_info := some token_info }
  let st2 := if persist_token then st1.persist_token else st1
  { st2 with needs_authentication := false }

/-- The dict returned by `complete_oauth_from_auth_code`. -/
structure OAuthResult where
  success : Bool
  error : Option String
  token_info : Option TokenInfo
  used_long_lived_token : Bool
deriving Repr, DecidableEq

/-- `auth_state.complete_oauth_from_auth_code`: a failing short-lived
exchange aborts with `authorization_code_exchange_failed`; otherwise the
long-lived exchange is attempted, its failure is non-fatal (the
short-lived token is kept), and the final token is stored. -/
def complete_oauth_from_auth_code (http : Http) (env : OAuthEnv) (now : Int)
    (auth_code : String) (redirect_uri : Option String) (persist_token : Bool)
    (st : AuthState) : OAuthResult × AuthState :=
  match exchange_code_for_short_lived http env now auth_code redirect_uri with
  | none =>
    ( { success := false
        error := some "authorization_code_exchange_failed"
        token_info := none
        used_long_lived_token := false }
    , st )
  | some short_token_info =>
    let long_token_info :=
      exchange_token_for_long_lived http env now short_token_info.meta_access_token
    let final_token := long_token_info.getD short_token_info
    ( { success := true
        error := none
        token_info := some final_token
        used_long_lived_token := long_token_info.isSome }
    , _store_token final_token persist_token st )

/-- `auth_state.get_current_access_token` (the `await`-free data flow):
a truthy `META_ACCESS_TOKEN` environment value short-circuits (rejected
when shorter than 20 characters); otherwise the configured app id is
checked, then the auth manager's token is consulted, with a short
(non-empty) manager token triggering invalidation. -/
def get_current_access_token (env_token : Option String) (app_id : String)
    (now : Int) (st : AuthState) : Option String × AuthState :=
  if (match env_token with | some t => t ≠ "" | none => false : Bool) then
    let t := env_token.getD ""
    if t.length < 20 then (none, st) else (some t, st)
  else if app_id = "" ∨ app_id = "YOUR_META_APP_ID" then (none, st)
  else
    match st.get_access_token now with
    | some token =>
      if token ≠ "" ∧ token.length ≥ 20 then (some token, st)
      else if token ≠ "" ∧ token.length < 20 then (none, st.invalidate_token)
      else (none, st)
    | none => (none, st)

/-! ## OAuth callback server lifecycle (`core/oauth_callback_server.py`) -/

/-- The module-level server handles: the allocated port (`none` while no
server is running), a count of server threads launched so far (modelling
`threading.Thread(...).start()`), whether the watchdog shutdown timer is
armed, and the `redirect_uri` slot of the shared `token_container`. -/
structure CallbackServerState where
  callback_port : Option Nat
  threads_started : Nat
  timer_active : Bool
  token_redirect : Option String
deriving Repr, DecidableEq

/-- The redirect URI advertised for a given port. -/
def callbackUri (port : Nat) : String :=
  "http://localhost:" ++ toString port ++ "/callback"

/-- `oauth_callback_server._choose_port`: linear probe over `attempts`
consecutive ports, against an oracle saying which ports can be bound;
exhaustion raises. -/
def _choose_port (avail : Nat → Bool) : Nat → Nat → Except String Nat
  | _, 0 => .error "Unable to allocate callback port after bounded attempts"
  | port, n + 1 => if avail port then .ok port else _choose_port avail (port + 1) n

/-- `oauth_callback_server.start_callback_server`: raises when disabled
via `META_ADS_DISABLE_CALLBACK_SERVER`; resets the token container;
returns the existing port when a server is already running; otherwise
probes for a port, launches the server thread and arms the watchdog
timer. -/
def start_callback_server (disabled : Bool) (avail : Nat → Bool)
    (st : CallbackServerState) : Except String (Nat × CallbackServerState) :=
  if disabled then
    .error "Callback server disabled via META_ADS_DISABLE_CALLBACK_SERVER"
  else
    let st0 : CallbackServerState := { st with token_redirect := none }
    match st0.callback_port with
    | some port => .ok (port, { st0 with token_redirect := some (callbackUri port) })
    | none =>
      match _choose_port avail 8080 10 with
      | .error e => .error e
      | .ok port =>
        .ok (port,
          { callback_port := some port
            threads_started := st0.threads_started + 1
            timer_active := true
            token_redirect := some (callbackUri port) })

/-- `oauth_callback_server.shutdown_callback_server`: cancels the
watchdog timer, stops the listener and clears all server handles;
idempotent. -/
def shutdown_callback_server (st : CallbackServerState) : CallbackServerState :=
  { callback_port := none
    threads_started := st.threads_started
    timer_active := false
    token_redirect := st.token_redirect }

/-! ## Page discovery (`core/ad_tools.py`) -/

/-- `ad_tools._PAGE_FIELDS`. -/
def _PAGE_FIELDS : String :=
  "id,name,username,category,fan_count,link,verification_status,picture"

/-- `ad_tools._normalize_ad_account_id`. -/
def _normalize_ad_account_id (ad_account_id : String) : String :=
  let t := strTrim ad_account_id
  if t = "" then ""
  else if strStartsWith t "act_" then t else "act_" ++ t

/-- An oracle for `graph_client.make_api_request(endpoint, token,
params)`, with the access token fixed: either the parsed payload or a
raised exception (its message). -/
def Api : Type := String → List (String × String) → Except String JVal

/-- A page candidate as built by `add_candidate`: the (stripped) page
id, the original page payload, and the source / confidence stamped onto
the copied dict. -/
structure PageCandidate where
  id : String
  payload : JVal
  source : String
  confidence : String

/-- A `{source, reason}` failure entry recorded by `add_failure`. -/
structure SourceFailure where
  source : String
  reason : String
deriving Repr, DecidableEq

/-- The accumulator of `_collect_account_page_candidates`: the `pages`
and `failures` lists and the `seen_ids` set (as the list of ids in
insertion order). -/
structure CollectState where
  pages : List PageCandidate
  failures : List SourceFailure
  seen_ids : List String

/-- The empty accumulator. -/
def CollectState.empty : CollectState :=
  { pages := [], failures := [], seen_ids := [] }

/-- The page id a raw row would contribute: `str(page.get("id", ""))
.strip()`, provided the row is a dict and the result non-empty. -/
def candidateIdOf (page : JVal) : Option String :=
  if page.isObj then
    let fid := strTrim ((page.getOpt "id").getD (.jstr "")).pyStr
    if fid = "" then none else some fid
  else none

/-- `_collect_account_page_candidates.add_candidate`: skip non-dicts,
empty ids and already-seen ids; otherwise append the page, stamped with
its source and confidence, and remember the id. -/
def addCandidate (st : CollectState) (page : JVal) (source confidence : String) :
    CollectState :=
  match candidateIdOf page with
  | none => st
  | some fid =>
    if fid ∈ st.seen_ids then st
    else
      { st with
        pages := st.pages ++ [{ id := fid, payload := page, source, confidence }]
        seen_ids := st.seen_ids ++ [fid] }

/-- `add_failure`. -/
def addFailure (st : CollectState) (source reason : String) : CollectState :=
  { st with failures := st.failures ++ [{ source, reason }] }

/-- The rows of `payload.get("data", [])` iterated by the collector.
A missing `data`, a non-dict payload, or a `data` value whose Python
iteration yields no dict rows (a string yields characters, a dict its
keys — all skipped by `add_candidate`) give no rows; a non-iterable
`data` value (`None`, a number, a boolean) raises `TypeError`. -/
def rowsOf (payload : JVal) : Except String (List JVal) :=
  if payload.isObj then
    match payload.getOpt "data" with
    | none => .ok []
    | some (.jarr xs) => .ok xs
    | some (.jstr _) => .ok []
    | some (.jobj _) => .ok []
    | some _ => .error "TypeError: object is not iterable"
  else .ok []

/-- Fold a list of rows from one edge through `add_candidate`. -/
def addRows (st : CollectState) (rows : List JVal) (source confidence : String) :
    CollectState :=
  rows.foldl (fun s row => addCandidate s row source confidence) st

/-- One list-shaped edge of the collector: request the edge, fold its
rows through `add_candidate`, and record a failure if the request (or
the row iteration) raises. -/
def collectEdge (api : Api) (st : CollectState) (edge : String)
    (params : List (String × String)) (source confidence : String) :
    CollectState :=
  match api edge params with
  | .error e => addFailure st source e
  | .ok payload =>
    match rowsOf payload with
    | .error e => addFailure st source e
    | .ok rows => addRows st rows source confidence

/-- `add_page_by_id`: skip empty or already-seen ids; otherwise fetch
the page's details and add them (falling back to a stub dict when the
details are inaccessible or the fetch raises). -/
def addPageById (api : Api) (st : CollectState) (facebook_page_id : String)
    (source confidence : String) : CollectState :=
  let normalized := strTrim facebook_page_id
  if normalized = "" ∨ normalized ∈ st.seen_ids then st
  else
    match api normalized [("fields", _PAGE_FIELDS)] with
    | .ok payload =>
      if payload.isObj ∧ (payload.get "id").truthy then
        addCandidate st payload source confidence
      else
        addCandidate st
          (.jobj [ ("id", .jstr normalized), ("name", .jstr "Unknown")
                 , ("error", .jstr "Page details not accessible") ])
          source confidence
    | .error e =>
      addCandidate st
        (.jobj [ ("id", .jstr normalized), ("name", .jstr "Unknown")
               , ("error", .jstr ("Failed to get page details: " ++ e)) ])
        source confidence

/-- The `business_id` the owned-pages step resolves: a dict business
yields its raw `id` value, a string or int (Python booleans included)
is `str()`-ed, anything else stays `None`. -/
def businessIdVal (business : JVal) : JVal :=
  match business with
  | .jobj _ => business.get "id"
  | .jstr s => .jstr s
  | .jnum n => .jstr (toString n)
  | .jbool b => .jstr (JVal.pyStr (.jbool b))
  | _ => .jnull

/-- Step 2 of the collector: resolve the ad account's linked business
and read its `owned_pages` edge; any raise, and an unresolvable
business id, record a `business/owned_pages` failure. -/
def collectOwnedPages (api : Api) (st : CollectState) (acct : String) :
    CollectState :=
  match api acct [("fields", "business\x7bid,name\x7d")] with
  | .error e => addFailure st "business/owned_pages" e
  | .ok account_payload =>
    let business :=
      if account_payload.isObj then account_payload.get "business" else .jnull
    let bid := businessIdVal business
    if bid.truthy then
      match api (bid.pyStr ++ "/owned_pages")
          [("fields", _PAGE_FIELDS), ("page_size", "200")] with
      | .error e => addFailure st "business/owned_pages" e
      | .ok owned =>
        match rowsOf owned with
        | .error e => addFailure st "business/owned_pages" e
        | .ok rows => addRows st rows "business/owned_pages" "primary_documented"
    else addFailure st "business/owned_pages"
      "Ad account is not linked to a business object"

/-- Insert into a Python-set model (membership-deduplicated list). -/
def setInsert (s : List String) (x : String) : List String :=
  if x ∈ s then s else s ++ [x]

/-- The numeric page ids harvested from one ad's
`tracking_specs[].page` arrays. -/
def trackingIdsOfAd (acc : List String) (ad : JVal) : List String :=
  let specs := if ad.isObj then (ad.getOpt "tracking_specs").getD (.jarr []) else .jarr []
  match specs with
  | .jarr specList =>
    specList.foldl (fun acc2 spec =>
      match (if spec.isObj then spec.get "page" else .jnull) with
      | .jarr page_values =>
        page_values.foldl (fun acc3 raw_id =>
          let fid := strTrim raw_id.pyStr
          if fid ≠ "" ∧ fid.data.all Char.isDigit then setInsert acc3 fid else acc3)
          acc2
      | _ => acc2) acc
  | _ => acc

/-- Step 5 of the collector: harvest numeric page ids from the
account's ads' `tracking_specs`, then fetch each (in sorted order) via
`add_page_by_id`. -/
def collectTrackingSpecs (api : Api) (st : CollectState) (acct : String) :
    CollectState :=
  match api (acct ++ "/ads") [("fields", "id,tracking_specs"), ("page_size", "100")] with
  | .error e => addFailure st "ads/tracking_specs" e
  | .ok ads_payload =>
    match rowsOf ads_payload with
    | .error e => addFailure st "ads/tracking_specs" e
    | .ok ads =>
      let tracking_ids := sortStrings (ads.foldl trackingIdsOfAd [])
      tracking_ids.foldl
        (fun s fid => addPageById api s fid "ads/tracking_specs" "secondary_fallback")
        st

/-- The numeric page id of one creative's `object_story_spec`, when
present: `str(story.get("page_id") or story.get("facebook_page_id",
"")).strip()`, kept when all digits. -/
def storyIdOfCreative (acc : List String) (creative : JVal) : List String :=
  if creative.isObj then
    match creative.getOpt "object_story_spec" with
    | some story =>
      if story.isObj then
        let fid := strTrim (pyOr (story.get "page_id")
          ((story.getOpt "facebook_page_id").getD (.jstr ""))).pyStr
        if fid ≠ "" ∧ fid.data.all Char.isDigit then setInsert acc fid else acc
      else acc
    | none => acc
  else acc

/-- Step 6 of the collector: harvest numeric page ids from the
account's ad creatives' `object_story_spec`, then fetch each (in sorted
order) via `add_page_by_id`. -/
def collectStorySpecs (api : Api) (st : CollectState) (acct : String) :
    CollectState :=
  match api (acct ++ "/adcreatives")
      [("fields", "id,object_story_spec"), ("page_size", "100")] with
  | .error e => addFailure st "adcreatives/object_story_spec" e
  | .ok creative_payload =>
    match rowsOf creative_payload with
    | .error e => addFailure st "adcreatives/object_story_spec" e
    | .ok creatives =>
      let story_ids := sortStrings (creatives.foldl storyIdOfCreative [])
      story_ids.foldl
        (fun s fid =>
          addPageById api s fid "adcreatives/object_story_spec" "secondary_fallback")
        st

/-- `ad_tools._collect_account_page_candidates`: the six Graph edges
tried in fixed priority order, each failure recorded rather than
propagated. -/
def _collect_account_page_candidates (api : Api) (ad_account_id : String) :
    CollectState :=
  let acct := _normalize_ad_account_id ad_account_id
  let st := CollectState.empty
  let st := collectEdge api st "me/accounts"
    [("fields", _PAGE_FIELDS), ("page_size", "200")] "me/accounts" "primary_documented"
  let st := collectOwnedPages api st acct
  let st := collectEdge api st (acct ++ "/client_pages")
    [("fields", _PAGE_FIELDS), ("page_size", "200")]
    "ad_account/client_pages" "secondary_fallback"
  let st := collectEdge api st (acct ++ "/assigned_pages")
    [("fields", _PAGE_FIELDS), ("page_size", "200")]
    "ad_account/assigned_pages" "secondary_fallback"
  let st := collectTrackingSpecs api st acct
  let st := collectStorySpecs api st acct
  st

/-- The `source_counts` summary of the collector's result dict. -/
def sourceCounts (pages : List PageCandidate) : Nat × Nat :=
  ( (pages.filter (fun p => p.confidence = "primary_documented")).length
  , (pages.filter (fun p => p.confidence = "secondary_fallback")).length )

/-- The result dict of `_discover_pages_for_account`: either the
`success:true` shape describing the selected page, or the
`success:false` shape carrying the per-source failures. -/
inductive DiscoverResult where
  | selected (facebook_page_id : String) (page_name : JVal) (source : String)
      (confidence : String) (total_candidates : Nat) (note : String) :
      DiscoverResult
  | noPages (message : String) (failed_sources : List SourceFailure)
      (note : String) : DiscoverResult

/-- The `name` field the success result reports:
`selected.get("name", "Unknown")`. -/
def candidateName (c : PageCandidate) : JVal :=
  (c.payload.getOpt "name").getD (.jstr "Unknown")

/-- `ad_tools._discover_pages_for_account`: select the first
`primary_documented` candidate, else the first candidate; with no
candidates at all, report `success:false` with the accumulated
failures. -/
def _discover_pages_for_account (api : Api) (ad_account_id : String) :
    DiscoverResult :=
  let discovery := _collect_account_page_candidates api ad_account_id
  match discovery.pages with
  | [] =>
    .noPages "No suitable pages found for this account" discovery.failures
      "Use list_account_pages for full diagnostics or provide facebook_page_id manually."
  | c :: cs =>
    let candidates := c :: cs
    let selected :=
      (candidates.find? (fun p => p.confidence = "primary_documented")).getD c
    .selected selected.id (candidateName selected) selected.source
      selected.confidence candidates.length
      (if selected.confidence = "primary_documented" then
        "Selected from documented primary page edges."
      else
        "Primary documented edges returned no pages; using secondary fallback edge.")

/-! ## Theorems -/

/-- Helper: `_coerce_expires_in` yields `None` whenever `int()` either
fails or yields a non-positive value. -/
theorem coerce_nonpos (v : JVal) (h : ∀ n : Int, pyInt v = some n → n ≤ 0) :
    _coerce_expires_in v = none := by
  cases v with
  | jnull => rfl
  | jbool b =>
    cases hp : pyInt (.jbool b) with
    | none => simp [_coerce_expires_in, hp]
    | some n =>
      have hn := h n hp
      simp only [_coerce_expires_in, hp]
      rw [if_neg (by omega)]
  | jnum n =>
    cases hp : pyInt (.jnum n) with
    | none => simp [_coerce_expires_in, hp]
    | some m =>
      have hn := h m hp
      simp only [_coerce_expires_in, hp]
      rw [if_neg (by omega)]
  | jstr s =>
    cases hp : pyInt (.jstr s) with
    | none => simp [_coerce_expires_in, hp]
    | some m =>
      have hn := h m hp
      simp only [_coerce_expires_in, hp]
      rw [if_neg (by omega)]
  | jarr xs => rfl
  | jobj fs => rfl

/-- C4 (amended): `is_expired()` is true iff `expires_in` is set to a
non-zero value and the current time exceeds `created_at + expires_in`;
a `None` or zero `expires_in` (both falsy in Python) means never
expired. -/
theorem is_expired_characterization (ti : TokenInfo) (now : Int) :
    ti.is_expired now = true ↔
      ∃ e : Int, ti.expires_in = some e ∧ e ≠ 0 ∧ now > ti.created_at + e := by
  unfold TokenInfo.is_expired
  cases he : ti.expires_in with
  | none => simp
  | some e =>
    by_cases h0 : e = 0
    · subst h0; simp
    · simp [h0]

/-- C4 counterexample: the claim's reading — expired iff `expires_in`
is set and `now > created_at + expires_in` — fails for a token whose
`expires_in` is set to `0`: Python's truthiness check makes
`is_expired()` return `False` although `now` exceeds
`created_at + 0`. -/
theorem is_expired_zero_counterexample :
    ¬ ((TokenInfo.mk "some_access_token" (some 0) none 50).is_expired 100 = true ↔
      ∃ e : Int,
        (TokenInfo.mk "some_access_token" (some 0) none 50).expires_in = some e ∧
        100 > (TokenInfo.mk "some_access_token" (some 0) none 50).created_at + e) := by
  intro h
  have hfalse := h.mpr ⟨0, rfl, by norm_num⟩
  simp [TokenInfo.is_expired] at hfalse

/-- C9: an `expires_in` payload value that `int()` cannot parse, or
that parses to zero or a negative number, is coerced to `None` by
`_coerce_expires_in`; `TokenInfo.deserialize` routes its `expires_in`
through that coercion, and a token with `expires_in = None` is never
expired, at any time. -/
theorem coerce_expires_in_nonpositive :
    (∀ v : JVal,
      (pyInt v = none ∨ ∃ n : Int, pyInt v = some n ∧ n ≤ 0) →
        _coerce_expires_in v = none) ∧
    (∀ (data : JVal) (now : Int) (ti : TokenInfo),
      TokenInfo.deserialize data now = some ti →
        ti.expires_in = _coerce_expires_in (data.get "expires_in")) ∧
    (∀ (ti : TokenInfo) (now : Int),
      ti.expires_in = none → ti.is_expired now = false) := by
  refine ⟨?_, ?_, ?_⟩
  · intro v h
    apply coerce_nonpos
    intro n hn
    rcases h with h | ⟨m, hm, hle⟩
    · rw [h] at hn; cases hn
    · rw [hm] at hn; cases hn; exact hle
  · intro data now ti h
    simp only [TokenInfo.deserialize] at h
    cases hc : (match data.getOpt "created_at" with
      | none => some now
      | some v => pyInt v) with
    | none => rw [hc] at h; cases h
    | some created =>
      rw [hc] at h
      cases h
      rfl
  · intro ti now h
    simp [TokenInfo.is_expired, h]

/-- Witness for C9: the unparseable string `"soon"` coerces to `None`,
and a deserialized token carrying it never expires. -/
theorem coerce_expires_in_nonpositive_witness :
    _coerce_expires_in (.jstr "soon") = none ∧
    (TokenInfo.mk "some_access_token" none none 1).is_expired 999999 = false :=
  ⟨coerce_expires_in_nonpositive.1 (.jstr "soon") (Or.inl (by decide)),
   coerce_expires_in_nonpositive.2.2 (TokenInfo.mk "some_access_token" none none 1)
     999999 rfl⟩

/-- Helper: the short-lived exchange consults the HTTP oracle only at
its own request parameters. -/
theorem exchange_short_congr (http1 http2 : Http) (env : OAuthEnv) (now : Int)
    (code : String) (ru : Option String)
    (h : http1 (shortLivedParams env code ru) = http2 (shortLivedParams env code ru)) :
    exchange_code_for_short_lived http1 env now code ru =
      exchange_code_for_short_lived http2 env now code ru := by
  unfold exchange_code_for_short_lived
  rw [h]

/-- C1: when the short-lived exchange succeeds and the long-lived
exchange fails (returns `None`), `complete_oauth_from_auth_code`
reports `success:true` with `used_long_lived_token:false`, the token it
returns and installs on the auth manager is exactly the short-lived
`TokenInfo`, `needs_authentication` is cleared, and the cache file
holds its serialization exactly when `persist_token` is true. -/
theorem complete_oauth_long_exchange_failure (http : Http) (env : OAuthEnv)
    (now : Int) (code : String) (ru : Option String) (persist : Bool)
    (st : AuthState) (sti : TokenInfo)
    (hshort : exchange_code_for_short_lived http env now code ru = some sti)
    (hlong : exchange_token_for_long_lived http env now sti.meta_access_token = none) :
    complete_oauth_from_auth_code http env now code ru persist st =
      ( { success := true, error := none, token_info := some sti,
          used_long_lived_token := false }
      , { token_info := some sti
          needs_authentication := false
          cache_file := if persist then some sti.serialize else st.cache_file } ) := by
  unfold complete_oauth_from_auth_code
  rw [hshort]
  simp only [hlong, Option.getD_none, Option.isSome_none]
  unfold _store_token AuthState.persist_token
  cases persist <;> simp

/-- Witness HTTP oracle for C1: the short-lived request succeeds with a
bare `access_token`, every other request (the long-lived one included)
raises. -/
def c1Http : Http := fun ps =>
  if ps = shortLivedParams ⟨"app", "secret"⟩ "authcode" none then
    .ok ⟨200, .jobj [("access_token", .jstr "SHORTLIVEDTOKENVALUE")]⟩
  else .error "boom"

/-- Witness for C1, at a concrete oracle, credentials and state. -/
theorem complete_oauth_long_exchange_failure_witness :
    complete_oauth_from_auth_code c1Http ⟨"app", "secret"⟩ 1000 "authcode" none true
        ⟨none, true, none⟩ =
      ( { success := true, error := none,
          token_info := some ⟨"SHORTLIVEDTOKENVALUE", none, none, 1000⟩,
          used_long_lived_token := false }
      , { token_info := some ⟨"SHORTLIVEDTOKENVALUE", none, none, 1000⟩
          needs_authentication := false
          cache_file := if true then
            some (TokenInfo.serialize ⟨"SHORTLIVEDTOKENVALUE", none, none, 1000⟩)
          else none } ) :=
  complete_oauth_long_exchange_failure c1Http ⟨"app", "secret"⟩ 1000 "authcode"
    none true ⟨none, true, none⟩ ⟨"SHORTLIVEDTOKENVALUE", none, none, 1000⟩ rfl rfl

/-- C2: when the short-lived exchange fails, `complete_oauth_from_auth_code`
returns `{success:false, error:"authorization_code_exchange_failed",
token_info:None, used_long_lived_token:false}` and leaves the auth
state untouched (no token stored, no cache write); moreover the outcome
is identical under any other HTTP oracle that agrees on the short-lived
request alone — the long-lived exchange request is never consulted. -/
theorem complete_oauth_short_exchange_failure (http1 http2 : Http)
    (env : OAuthEnv) (now : Int) (code : String) (ru : Option String)
    (persist : Bool) (st : AuthState)
    (hfail : exchange_code_for_short_lived http1 env now code ru = none)
    (hagree : http1 (shortLivedParams env code ru) = http2 (shortLivedParams env code ru)) :
    complete_oauth_from_auth_code http1 env now code ru persist st =
      ( { success := false, error := some "authorization_code_exchange_failed",
          token_info := none, used_long_lived_token := false }, st ) ∧
    complete_oauth_from_auth_code http2 env now code ru persist st =
      ( { success := false, error := some "authorization_code_exchange_failed",
          token_info := none, used_long_lived_token := false }, st ) := by
  have h2 : exchange_code_for_short_lived http2 env now code ru = none := by
    rw [← exchange_short_congr http1 http2 env now code ru hagree]
    exact hfail
  constructor
  · unfold complete_oauth_from_auth_code; rw [hfail]
  · unfold complete_oauth_from_auth_code; rw [h2]

/-- Witness HTTP oracle for C2: the short-lived request raises. -/
def c2Http1 : Http := fun _ => .error "connection refused"

/-- A second oracle for C2 agreeing with `c2Http1` only on the
short-lived request: everywhere else it answers with a valid token. -/
def c2Http2 : Http := fun ps =>
  if ps = shortLivedParams ⟨"app", "secret"⟩ "authcode" none then
    .error "connection refused"
  else .ok ⟨200, .jobj [("access_token", .jstr "LONGLIVEDTOKENVALUE1")]⟩

/-- Witness for C2, at a concrete oracle pair, credentials and state. -/
theorem complete_oauth_short_exchange_failure_witness :
    complete_oauth_from_auth_code c2Http1 ⟨"app", "secret"⟩ 1000 "authcode" none true
        ⟨none, false, none⟩ =
      ( { success := false, error := some "authorization_code_exchange_failed",
          token_info := none, used_long_lived_token := false }
      , ⟨none, false, none⟩ ) ∧
    complete_oauth_from_auth_code c2Http2 ⟨"app", "secret"⟩ 1000 "authcode" none true
        ⟨none, false, none⟩ =
      ( { success := false, error := some "authorization_code_exchange_failed",
          token_info := none, used_long_lived_token := false }
      , ⟨none, false, none⟩ ) :=
  complete_oauth_short_exchange_failure c2Http1 c2Http2 ⟨"app", "secret"⟩ 1000
    "authcode" none true ⟨none, false, none⟩ rfl rfl

/-- The body used to refute C3: an HTTP 200 payload with no
`access_token` field but a `meta_access_token` one. -/
def c3Body : JVal := .jobj [("meta_access_token", .jstr "FALLBACKTOKENVALUE12")]

/-- The oracle used to refute C3: every request gets HTTP 200 with
`c3Body`. -/
def c3Http : Http := fun _ => .ok ⟨200, c3Body⟩

/-- C3 counterexample: a 200 response whose JSON body lacks an
`access_token` field does NOT always make the exchanges return `None` —
the code falls back to a `meta_access_token` field and returns a token. -/
theorem exchange_missing_access_token_counterexample :
    c3Body.getOpt "access_token" = none ∧
    (exchange_code_for_short_lived c3Http ⟨"app", "secret"⟩ 1000 "authcode" none).isSome
      = true ∧
    (exchange_token_for_long_lived c3Http ⟨"app", "secret"⟩ 1000 "tok").isSome = true :=
  ⟨rfl, rfl, rfl⟩

/-- C3 (amended): for every HTTP 200 token-endpoint response whose JSON
body yields a falsy value for `access_token` AND for the
`meta_access_token` fallback, both exchanges return `None`, and
completing OAuth against such a token endpoint leaves the auth state
unchanged — no token is stored. -/
theorem exchange_missing_tokens (body : JVal)
    (hbody : (pyOr (body.get "access_token") (body.get "meta_access_token")).truthy
      = false) :
    (∀ (env : OAuthEnv) (now : Int) (code : String) (ru : Option String),
      exchange_code_for_short_lived (fun _ => .ok ⟨200, body⟩) env now code ru = none) ∧
    (∀ (env : OAuthEnv) (now : Int) (tok : String),
      exchange_token_for_long_lived (fun _ => .ok ⟨200, body⟩) env now tok = none) ∧
    (∀ (env : OAuthEnv) (now : Int) (code : String) (ru : Option String)
        (persist : Bool) (st : AuthState),
      (complete_oauth_from_auth_code (fun _ => .ok ⟨200, body⟩) env now code ru
        persist st).2 = st) := by
  have hshort : ∀ (env : OAuthEnv) (now : Int) (code : String) (ru : Option String),
      exchange_code_for_short_lived (fun _ => .ok ⟨200, body⟩) env now code ru = none := by
    intro env now code ru
    unfold exchange_code_for_short_lived
    split
    · rfl
    · simp [hbody]
  refine ⟨hshort, ?_, ?_⟩
  · intro env now tok
    unfold exchange_token_for_long_lived
    split
    · rfl
    · simp [hbody]
  · intro env now code ru persist st
    unfold complete_oauth_from_auth_code
    rw [hshort env now code ru]

/-- Witness for C3's amended theorem: a 200 body holding only an
`expires_in` field. -/
theorem exchange_missing_tokens_witness :
    exchange_code_for_short_lived
        (fun _ => .ok ⟨200, .jobj [("expires_in", .jnum 3600)]⟩)
        ⟨"app", "secret"⟩ 1000 "authcode" none = none ∧
    exchange_token_for_long_lived
        (fun _ => .ok ⟨200, .jobj [("expires_in", .jnum 3600)]⟩)
        ⟨"app", "secret"⟩ 1000 "sometok" = none :=
  ⟨(exchange_missing_tokens (.jobj [("expires_in", .jnum 3600)]) rfl).1
      ⟨"app", "secret"⟩ 1000 "authcode" none,
   (exchange_missing_tokens (.jobj [("expires_in", .jnum 3600)]) rfl).2.1
      ⟨"app", "secret"⟩ 1000 "sometok"⟩

/-- C8: a second `start_callback_server()` call, with no intervening
shutdown, returns the very same port and leaves the server state
exactly as the first call left it — in particular no new port is
allocated and no further server thread is started. -/
theorem start_callback_server_idempotent (disabled : Bool) (avail : Nat → Bool)
    (st st' : CallbackServerState) (p : Nat)
    (h : start_callback_server disabled avail st = .ok (p, st')) :
    start_callback_server disabled avail st' = .ok (p, st') := by
  unfold start_callback_server at h ⊢
  cases disabled with
  | true => cases h
  | false =>
    simp only [Bool.false_eq_true, if_false] at h ⊢
    have hport : st'.callback_port = some p ∧ st'.token_redirect = some (callbackUri p) := by
      cases hsp : st.callback_port with
      | some q =>
        rw [hsp] at h
        cases h
        exact ⟨rfl, rfl⟩
      | none =>
        rw [hsp] at h
        cases hcp : _choose_port avail 8080 10 with
        | error e => rw [hcp] at h; cases h
        | ok q => rw [hcp] at h; cases h; exact ⟨rfl, rfl⟩
    obtain ⟨c, t, a, r⟩ := st'
    obtain ⟨h1, h2⟩ := hport
    simp only at h1 h2
    subst h1
    subst h2
    rfl

/-- Witness for C8: starting from the idle state with every port
available, the first call yields port 8080; the theorem then gives the
second call's result. -/
theorem start_callback_server_idempotent_witness :
    start_callback_server false (fun _ => true)
        ⟨some 8080, 1, true, some (callbackUri 8080)⟩ =
      .ok (8080, ⟨some 8080, 1, true, some (callbackUri 8080)⟩) :=
  start_callback_server_idempotent false (fun _ => true) ⟨none, 0, false, none⟩
    ⟨some 8080, 1, true, some (callbackUri 8080)⟩ 8080 rfl

/-- C7: when every Graph request of page discovery raises (each source
failing with an arbitrary reason), `_collect_account_page_candidates`
produces no candidates and exactly six `{source, reason}` failure
entries, one per source in priority order, and
`_discover_pages_for_account` returns the `success:false` shape
carrying them — no exception escapes. -/
theorem discover_all_sources_fail
    (err : String → List (String × String) → String) (acct : String) :
    _collect_account_page_candidates
        (fun path params => .error (err path params)) acct =
      { pages := []
        seen_ids := []
        failures :=
          [ ⟨"me/accounts",
              err "me/accounts" [("fields", _PAGE_FIELDS), ("page_size", "200")]⟩
          , ⟨"business/owned_pages",
              err (_normalize_ad_account_id acct)
                [("fields", "business\x7bid,name\x7d")]⟩
          , ⟨"ad_account/client_pages",
              err (_normalize_ad_account_id acct ++ "/client_pages")
                [("fields", _PAGE_FIELDS), ("page_size", "200")]⟩
          , ⟨"ad_account/assigned_pages",
              err (_normalize_ad_account_id acct ++ "/assigned_pages")
                [("fields", _PAGE_FIELDS), ("page_size", "200")]⟩
          , ⟨"ads/tracking_specs",
              err (_normalize_ad_account_id acct ++ "/ads")
                [("fields", "id,tracking_specs"), ("page_size", "100")]⟩
          , ⟨"adcreatives/object_story_spec",
              err (_normalize_ad_account_id acct ++ "/adcreatives")
                [("fields", "id,object_story_spec"), ("page_size", "100")]⟩ ] } ∧
    _discover_pages_for_account (fun path params => .error (err path params)) acct =
      .noPages "No suitable pages found for this account"
        [ ⟨"me/accounts",
            err "me/accounts" [("fields", _PAGE_FIELDS), ("page_size", "200")]⟩
        , ⟨"business/owned_pages",
            err (_normalize_ad_account_id acct)
              [("fields", "business\x7bid,name\x7d")]⟩
        , ⟨"ad_account/client_pages",
            err (_normalize_ad_account_id acct ++ "/client_pages")
              [("fields", _PAGE_FIELDS), ("page_size", "200")]⟩
        , ⟨"ad_account/assigned_pages",
            err (_normalize_ad_account_id acct ++ "/assigned_pages")
              [("fields", _PAGE_FIELDS), ("page_size", "200")]⟩
        , ⟨"ads/tracking_specs",
            err (_normalize_ad_account_id acct ++ "/ads")
              [("fields", "id,tracking_specs"), ("page_size", "100")]⟩
        , ⟨"adcreatives/object_story_spec",
            err (_normalize_ad_account_id acct ++ "/adcreatives")
              [("fields", "id,object_story_spec"), ("page_size", "100")]⟩ ]
        "Use list_account_pages for full diagnostics or provide facebook_page_id manually." :=
  ⟨rfl, rfl⟩

/-- C6: whenever discovery produces a non-empty candidate list,
`_discover_pages_for_account` returns the `success:true` shape built
from a selected candidate, where the selection is the first candidate
of confidence `primary_documented` when one exists, and the first
candidate of the list otherwise. -/
theorem discover_selects_primary_else_first (api : Api) (acct : String)
    (c : PageCandidate) (cs : List PageCandidate)
    (h : (_collect_account_page_candidates api acct).pages = c :: cs) :
    ∃ sel : PageCandidate,
      _discover_pages_for_account api acct =
        .selected sel.id (candidateName sel) sel.source sel.confidence
          (c :: cs).length
          (if sel.confidence = "primary_documented" then
            "Selected from documented primary page edges."
          else
            "Primary documented edges returned no pages; using secondary fallback edge.") ∧
      ((∃ q ∈ c :: cs, q.confidence = "primary_documented") →
        (c :: cs).find? (fun q => q.confidence = "primary_documented") = some sel) ∧
      ((∀ q ∈ c :: cs, q.confidence ≠ "primary_documented") → sel = c) := by
  refine ⟨((c :: cs).find? (fun q => q.confidence = "primary_documented")).getD c,
    ?_, ?_, ?_⟩
  · simp only [_discover_pages_for_account, h]
  · rintro ⟨q, hq, hqc⟩
    have hs : ((c :: cs).find? (fun q => q.confidence = "primary_documented")).isSome :=
      List.find?_isSome.mpr ⟨q, hq, by simp [hqc]⟩
    obtain ⟨x, hx⟩ := Option.isSome_iff_exists.mp hs
    rw [hx]
    rfl
  · intro hall
    have hn : (c :: cs).find? (fun q => q.confidence = "primary_documented") = none :=
      List.find?_eq_none.mpr (fun x hx => by simpa using hall x hx)
    rw [hn]
    rfl

/-- The single page the C6 witness oracle returns on `me/accounts`. -/
def c6Page : JVal := .jobj [("id", .jstr "777"), ("name", .jstr "Solo Page")]

/-- The C6 witness oracle: one page from `me/accounts`, every other
edge raising. -/
def c6Api : Api := fun path _params =>
  if path = "me/accounts" then .ok (.jobj [("data", .jarr [c6Page])])
  else .error "down"

/-- Witness for C6: with exactly one discovered candidate, the success
shape selects it. -/
theorem discover_selects_primary_else_first_witness :
    ∃ sel : PageCandidate,
      _discover_pages_for_account c6Api "act_1" =
        .selected sel.id (candidateName sel) sel.source sel.confidence
          ([({ id := "777", payload := c6Page, source := "me/accounts",
               confidence := "primary_documented" } : PageCandidate)]).length
          (if sel.confidence = "primary_documented" then
            "Selected from documented primary page edges."
          else
            "Primary documented edges returned no pages; using secondary fallback edge.") ∧
      ((∃ q ∈ [({ id := "777", payload := c6Page, source := "me/accounts",
                  confidence := "primary_documented" } : PageCandidate)],
          q.confidence = "primary_documented") →
        ([({ id := "777", payload := c6Page, source := "me/accounts",
             confidence := "primary_documented" } : PageCandidate)]).find?
            (fun q => q.confidence = "primary_documented") = some sel) ∧
      ((∀ q ∈ [({ id := "777", payload := c6Page, source := "me/accounts",
                  confidence := "primary_documented" } : PageCandidate)],
          q.confidence ≠ "primary_documented") →
        sel = { id := "777", payload := c6Page, source := "me/accounts",
                confidence := "primary_documented" }) :=
  discover_selects_primary_else_first c6Api "act_1"
    { id := "777", payload := c6Page, source := "me/accounts",
      confidence := "primary_documented" } [] rfl

/-- The sequence of `add_candidate` invocations of one discovery run,
abstracted: each event is the raw page together with the source and
confidence it was offered under. -/
def collectFold (events : List (JVal × String × String)) (st : CollectState) :
    CollectState :=
  events.foldl (fun s e => addCandidate s e.1 e.2.1 e.2.2) st

/-- The collector's internal invariant: `seen_ids` is exactly the list
of candidate ids, and the candidate ids are pairwise distinct. -/
def GoodState (st : CollectState) : Prop :=
  st.seen_ids = st.pages.map (fun c => c.id) ∧
    (st.pages.map (fun c => c.id)).Nodup

theorem good_empty : GoodState CollectState.empty :=
  ⟨rfl, List.nodup_nil⟩

/-- `add_candidate` on a row yielding no usable id is a no-op. -/
theorem addCandidate_none (st : CollectState) (page : JVal) (src conf : String)
    (h : candidateIdOf page = none) : addCandidate st page src conf = st := by
  unfold addCandidate
  rw [h]

/-- `add_candidate` on an already-seen id is a no-op. -/
theorem addCandidate_seen (st : CollectState) (page : JVal) (src conf fid : String)
    (h : candidateIdOf page = some fid) (hm : fid ∈ st.seen_ids) :
    addCandidate st page src conf = st := by
  unfold addCandidate
  rw [h]
  simp [hm]

/-- `add_candidate` on a fresh id appends the stamped candidate and
records the id as seen. -/
theorem addCandidate_new (st : CollectState) (page : JVal) (src conf fid : String)
    (h : candidateIdOf page = some fid) (hm : fid ∉ st.seen_ids) :
    addCandidate st page src conf =
      { st with
        pages := st.pages ++ [{ id := fid, payload := page, source := src, confidence := conf }]
        seen_ids := st.seen_ids ++ [fid] } := by
  unfold addCandidate
  rw [h]
  simp [hm]

theorem addCandidate_good (st : CollectState) (page : JVal) (src conf : String)
    (h : GoodState st) : GoodState (addCandidate st page src conf) := by
  obtain ⟨hsync, hnd⟩ := h
  cases hid : candidateIdOf page with
  | none => rw [addCandidate_none st page src conf hid]; exact ⟨hsync, hnd⟩
  | some fid =>
    by_cases hmem : fid ∈ st.seen_ids
    · rw [addCandidate_seen st page src conf fid hid hmem]
      exact ⟨hsync, hnd⟩
    · rw [addCandidate_new st page src conf fid hid hmem]
      constructor
      · simp [hsync]
      · rw [hsync] at hmem
        simp [List.nodup_append, hnd, hmem]

theorem addFailure_good (st : CollectState) (src reason : String)
    (h : GoodState st) : GoodState (addFailure st src reason) := h

/-- Folding any `GoodState`-preserving step preserves `GoodState`. -/
theorem foldl_good {α : Type} (f : CollectState → α → CollectState)
    (hf : ∀ st a, GoodState st → GoodState (f st a)) :
    ∀ (l : List α) (st : CollectState), GoodState st → GoodState (l.foldl f st) := by
  intro l
  induction l with
  | nil => intro st h; exact h
  | cons a as ih => intro st h; exact ih (f st a) (hf st a h)

theorem addRows_good (st : CollectState) (rows : List JVal) (src conf : String)
    (h : GoodState st) : GoodState (addRows st rows src conf) :=
  foldl_good _ (fun s row hs => addCandidate_good s row src conf hs) rows st h

theorem addPageById_good (api : Api) (st : CollectState) (fid src conf : String)
    (h : GoodState st) : GoodState (addPageById api st fid src conf) := by
  unfold addPageById
  dsimp only
  repeat' split
  all_goals first
    | exact h
    | exact addCandidate_good _ _ _ _ h

theorem collectEdge_good (api : Api) (st : CollectState) (edge : String)
    (params : List (String × String)) (src conf : String)
    (h : GoodState st) : GoodState (collectEdge api st edge params src conf) := by
  unfold collectEdge
  repeat' split
  all_goals first
    | exact addFailure_good _ _ _ h
    | exact addRows_good _ _ _ _ h

theorem collectOwnedPages_good (api : Api) (st : CollectState) (acct : String)
    (h : GoodState st) : GoodState (collectOwnedPages api st acct) := by
  unfold collectOwnedPages
  dsimp only
  repeat' split
  all_goals first
    | exact addFailure_good _ _ _ h
    | exact addRows_good _ _ _ _ h

theorem collectTrackingSpecs_good (api : Api) (st : CollectState) (acct : String)
    (h : GoodState st) : GoodState (collectTrackingSpecs api st acct) := by
  unfold collectTrackingSpecs
  dsimp only
  repeat' split
  all_goals first
    | exact addFailure_good _ _ _ h
    | exact foldl_good _
        (fun s fid hs => addPageById_good api s fid "ads/tracking_specs"
          "secondary_fallback" hs) _ st h

theorem collectStorySpecs_good (api : Api) (st : CollectState) (acct : String)
    (h : GoodState st) : GoodState (collectStorySpecs api st acct) := by
  unfold collectStorySpecs
  dsimp only
  repeat' split
  all_goals first
    | exact addFailure_good _ _ _ h
    | exact foldl_good _
        (fun s fid hs => addPageById_good api s fid "adcreatives/object_story_spec"
          "secondary_fallback" hs) _ st h

theorem collect_good (api : Api) (acct : String) :
    GoodState (_collect_account_page_candidates api acct) := by
  unfold _collect_account_page_candidates
  exact collectStorySpecs_good _ _ _
    (collectTrackingSpecs_good _ _ _
      (collectEdge_good _ _ _ _ _ _
        (collectEdge_good _ _ _ _ _ _
          (collectOwnedPages_good _ _ _
            (collectEdge_good _ _ _ _ _ _ good_empty)))))

/-- First-occurrence-wins for an arbitrary sequence of `add_candidate`
invocations: every candidate of the final state either was already
there, or is exactly the payload/source/confidence of the FIRST event
whose page yields its id. -/
theorem collectFold_first (events : List (JVal × String × String)) :
    ∀ st : CollectState, st.seen_ids = st.pages.map (fun c => c.id) →
      ∀ c ∈ (collectFold events st).pages,
        c ∈ st.pages ∨
          (c.id ∉ st.seen_ids ∧
            events.find? (fun e => candidateIdOf e.1 = some c.id) =
              some (c.payload, c.source, c.confidence)) := by
  induction events with
  | nil => intro st _ c hc; exact Or.inl hc
  | cons e es ih =>
    intro st hsync c hc
    rw [show collectFold (e :: es) st =
      collectFold es (addCandidate st e.1 e.2.1 e.2.2) from rfl] at hc
    cases hid : candidateIdOf e.1 with
    | none =>
      rw [addCandidate_none st e.1 e.2.1 e.2.2 hid] at hc
      rcases ih st hsync c hc with hl | ⟨hni, hf⟩
      · exact Or.inl hl
      · refine Or.inr ⟨hni, ?_⟩
        rw [List.find?_cons_of_neg _ (by simp [hid])]
        exact hf
    | some fid =>
      by_cases hm : fid ∈ st.seen_ids
      · rw [addCandidate_seen st e.1 e.2.1 e.2.2 fid hid hm] at hc
        rcases ih st hsync c hc with hl | ⟨hni, hf⟩
        · exact Or.inl hl
        · refine Or.inr ⟨hni, ?_⟩
          have hne : fid ≠ c.id := fun heq => hni (heq ▸ hm)
          rw [List.find?_cons_of_neg _ (by simp [hid, hne])]
          exact hf
      · rw [addCandidate_new st e.1 e.2.1 e.2.2 fid hid hm] at hc
        rcases ih _ (by simp [hsync]) c hc with hl | ⟨hni, hf⟩
        · rcases List.mem_append.mp hl with hin | hone
          · exact Or.inl hin
          · have hceq : c =
                { id := fid, payload := e.1, source := e.2.1, confidence := e.2.2 } := by
              simpa using hone
            subst hceq
            refine Or.inr ⟨hm, ?_⟩
            rw [List.find?_cons_of_pos _ (by simp [hid])]
        · have hni1 : c.id ∉ st.seen_ids :=
            fun hx => hni (List.mem_append.mpr (Or.inl hx))
          have hni2 : c.id ≠ fid :=
            fun hx => hni (List.mem_append.mpr (Or.inr (by simp [hx])))
          refine Or.inr ⟨hni1, ?_⟩
          rw [List.find?_cons_of_neg _
            (by simp [hid]; exact fun hx => hni2 hx.symm)]
          exact hf

/-- The page P1 of C5's concrete scenario. -/
def c5P1 : JVal := .jobj [("id", .jstr "111"), ("name", .jstr "Page One")]

/-- The page P2 of C5's concrete scenario. -/
def c5P2 : JVal := .jobj [("id", .jstr "222"), ("name", .jstr "Page Two")]

/-- C5's oracle: `me/accounts` returns P1, `client_pages` returns P1
and P2, every other edge raises. -/
def c5Api : Api := fun path _params =>
  if path = "me/accounts" then .ok (.jobj [("data", .jarr [c5P1])])
  else if path = "act_123/client_pages" then .ok (.jobj [("data", .jarr [c5P1, c5P2])])
  else .error "edge unavailable"

/-- C5: candidates are deduplicated by page id with the first
occurrence winning.  (1) For every sequence of `add_candidate`
invocations, each final candidate carries the payload, source and
confidence of the FIRST event producing its id, and (2) the full
collector never lists an id twice, for any API behaviour.  (3) In
particular, when `me/accounts` returns P1 and `client_pages` returns P1
and P2, the merged list is exactly [P1 from `me/accounts` with
`primary_documented`, P2 from `ad_account/client_pages` with
`secondary_fallback`]. -/
theorem candidates_dedup_first_wins :
    (∀ events : List (JVal × String × String),
      ∀ c ∈ (collectFold events CollectState.empty).pages,
        events.find? (fun e => candidateIdOf e.1 = some c.id) =
          some (c.payload, c.source, c.confidence)) ∧
    (∀ (api : Api) (acct : String),
      ((_collect_account_page_candidates api acct).pages.map (fun c => c.id)).Nodup) ∧
    ((_collect_account_page_candidates c5Api "act_123").pages =
      [ { id := "111", payload := c5P1, source := "me/accounts",
          confidence := "primary_documented" }
      , { id := "222", payload := c5P2, source := "ad_account/client_pages",
          confidence := "secondary_fallback" } ]) := by
  refine ⟨?_, ?_, rfl⟩
  · intro events c hc
    rcases collectFold_first events CollectState.empty rfl c hc with hl | ⟨_, hf⟩
    · cases hl
    · exact hf
  · intro api acct
    exact (collect_good api acct).2

/-- The event list of C5's witness: P1 offered by `me/accounts`, then
again by a later edge, then P2. -/
def c5Events : List (JVal × String × String) :=
  [ (c5P1, "me/accounts", "primary_documented")
  , (c5P1, "ad_account/client_pages", "secondary_fallback")
  , (c5P2, "ad_account/client_pages", "secondary_fallback") ]

/-- The candidate P1 becomes after the first event of `c5Events`. -/
def c5Cand1 : PageCandidate :=
  { id := "111", payload := c5P1, source := "me/accounts",
    confidence := "primary_documented" }

/-- The candidate P2 becomes. -/
def c5Cand2 : PageCandidate :=
  { id := "222", payload := c5P2, source := "ad_account/client_pages",
    confidence := "secondary_fallback" }

/-- Witness for C5: on the concrete event list, the candidate for id
`"111"` reflects the first event, not the duplicate. -/
theorem candidates_dedup_first_wins_witness :
    c5Events.find? (fun e => candidateIdOf e.1 = some c5Cand1.id) =
      some (c5Cand1.payload, c5Cand1.source, c5Cand1.confidence) := by
  have hpages : (collectFold c5Events CollectState.empty).pages =
      [c5Cand1, c5Cand2] := rfl
  exact candidates_dedup_first_wins.1 c5Events c5Cand1
    (by rw [hpages]; exact List.mem_cons_self _ _)

/-- An auth state holding a valid (21-character, non-expiring) manager
token, used to refute C10. -/
def c10St : AuthState :=
  ⟨some ⟨"MANAGERTOKENVALUE1234", none, none, 50⟩, false, none⟩

/-- C10 counterexample: an environment-supplied `META_ACCESS_TOKEN`
that is the empty string IS shorter than 20 characters, yet
`get_current_access_token` does not return `None`: the empty string is
falsy, so the code falls through to the auth manager and returns its
token. -/
theorem get_current_access_token_empty_env_counterexample :
    ("" : String).length < 20 ∧
    get_current_access_token (some "") "app_12345" 100 c10St =
      (some "MANAGERTOKENVALUE1234", c10St) :=
  ⟨by decide, rfl⟩

/-- C10 (amended): `get_current_access_token` never returns a token
shorter than 20 characters; a NON-EMPTY environment token shorter than
20 yields `None` with the auth state untouched; and a present,
unexpired, NON-EMPTY manager token shorter than 20 triggers
`invalidate_token` — token cleared, `needs_authentication` raised,
cache file deleted — before `None` is returned. -/
theorem get_current_access_token_min_length :
    (∀ (env_token : Option String) (app_id : String) (now : Int) (st : AuthState)
        (t : String) (st' : AuthState),
      get_current_access_token env_token app_id now st = (some t, st') →
        20 ≤ t.length) ∧
    (∀ (t app_id : String) (now : Int) (st : AuthState),
      t ≠ "" → t.length < 20 →
        get_current_access_token (some t) app_id now st = (none, st)) ∧
    (∀ (app_id : String) (now : Int) (st : AuthState) (ti : TokenInfo),
      app_id ≠ "" → app_id ≠ "YOUR_META_APP_ID" →
      st.token_info = some ti → ti.is_expired now = false →
      ti.meta_access_token ≠ "" → ti.meta_access_token.length < 20 →
        get_current_access_token none app_id now st = (none, ⟨none, true, none⟩)) := by
  refine ⟨?_, ?_, ?_⟩
  · intro env_token app_id now st t st' h
    unfold get_current_access_token at h
    split at h
    · dsimp only at h
      split at h
      · simp at h
      · rw [Prod.mk.injEq] at h
        injection h.1 with h1
        subst h1
        rename_i hcond _
        omega
    · split at h
      · simp at h
      · split at h
        next tok r heq =>
          split at h
          next hcond =>
            rw [Prod.mk.injEq] at h
            injection h.1 with h1
            subst h1
            exact hcond.2
          next =>
            split at h
            · simp at h
            · simp at h
        next heq => simp at h
  · intro t app_id now st hne hlen
    unfold get_current_access_token
    rw [if_pos (by simp [hne])]
    dsimp only
    rw [if_pos (by simpa using hlen)]
  · intro app_id now st ti h1 h2 hti hexp hne hlen
    have hg : st.get_access_token now = some ti.meta_access_token := by
      unfold AuthState.get_access_token
      rw [hti]
      simp [hexp]
    unfold get_current_access_token
    rw [if_neg (by simp)]
    rw [if_neg (by simp [h1, h2])]
    rw [hg]
    dsimp only
    rw [if_neg (fun hx => absurd hx.2 (by omega))]
    rw [if_pos ⟨hne, hlen⟩]
    rfl

/-- Witness for C10's amended theorem: the length bound at the
counterexample's input, a concrete short non-empty environment token,
and a concrete short non-empty manager token triggering invalidation. -/
theorem get_current_access_token_min_length_witness :
    20 ≤ ("MANAGERTOKENVALUE1234" : String).length ∧
    get_current_access_token (some "shorttok") "app_12345" 100 c10St =
      (none, c10St) ∧
    get_current_access_token none "app_12345" 100
        ⟨some ⟨"short", none, none, 50⟩, false, some (.jobj [])⟩ =
      (none, ⟨none, true, none⟩) :=
  ⟨get_current_access_token_min_length.1 (some "") "app_12345" 100 c10St
      "MANAGERTOKENVALUE1234" c10St rfl,
   get_current_access_token_min_length.2.1 "shorttok" "app_12345" 100 c10St
      (by decide) (by decide),
   get_current_access_token_min_length.2.2 "app_12345" 100
      ⟨some ⟨"short", none, none, 50⟩, false, some (.jobj [])⟩
      ⟨"short", none, none, 50⟩ (by decide) (by decide) rfl rfl
      (by decide) (by decide)⟩

end ArmaVita
